import Mathlib

/-!
Verification of the HelloWorldAPI Lambda validation and error-handling layer.

The development shallowly embeds the TypeScript sources
`src/aws-api-app/src/lambda/utils/validation.ts`,
`src/aws-api-app/src/lambda/handlers/items.ts` (handleError,
createValidationError) and the type definitions of the validation and
error modules.  JavaScript runtime values are modelled by the inductive
`JSVal`; objects are association lists whose order is the key iteration
order.  Numbers are modelled by `Int` (no NaN value exists in the model;
none of the verified properties involves NaN inputs).  JSON string
serialisation, response headers and the timestamp field of error bodies
are outside the model: an error response is modelled structurally by
`ApiResponse`, whose `body` holds the `success`, `error`, `message` and
`statusCode` fields of the serialised JSON body.
-/

set_option autoImplicit false

namespace HelloWorldAPI

/-- A JavaScript runtime value.  Objects keep their fields in key
iteration order; JavaScript objects have distinct keys. -/
inductive JSVal where
  | undefined
  | null
  | str (s : String)
  | num (n : Int)
  | bool (b : Bool)
  | arr (elems : List JSVal)
  | obj (fields : List (String × JSVal))

/-- Embeds the type guard isString of src/unnamed/part_005. -/
def isString : JSVal → Bool
  | .str _ => true
  | _ => false

/-- Embeds the type guard isNumber (typeof number and not NaN; the model
has no NaN value). -/
def isNumber : JSVal → Bool
  | .num _ => true
  | _ => false

/-- Embeds the type guard isBoolean. -/
def isBoolean : JSVal → Bool
  | .bool _ => true
  | _ => false

/-- Embeds the type guard isArray. -/
def isArray : JSVal → Bool
  | .arr _ => true
  | _ => false

/-- Embeds the type guard isObject: typeof object, not null, not an
array. -/
def isObject : JSVal → Bool
  | .obj _ => true
  | _ => false

/-- Embeds the type guard isDefined: not null and not undefined. -/
def isDefined : JSVal → Bool
  | .null => false
  | .undefined => false
  | _ => true

/-- Embeds String.prototype.trim on the character list: whitespace is
removed from both ends. -/
def jsTrimChars (cs : List Char) : List Char :=
  ((cs.dropWhile Char.isWhitespace).reverse.dropWhile Char.isWhitespace).reverse

/-- Embeds the type guard isNonEmptyString: a string whose trim has
positive length. -/
def isNonEmptyString : JSVal → Bool
  | .str s => (jsTrimChars s.toList).length > 0
  | _ => false

/-- JavaScript strict equality on primitives; distinct object or array
literals are never identical references, so they compare unequal.  Used
to embed Array.prototype.includes in enum checks (enum lists in this
code base hold only strings). -/
def jsStrictEq : JSVal → JSVal → Bool
  | .undefined, .undefined => true
  | .null, .null => true
  | .str a, .str b => a == b
  | .num a, .num b => a == b
  | .bool a, .bool b => a == b
  | _, _ => false

/-- String coercion of a value, as performed by template literals and
Array.prototype.join. -/
def jsDisplay : JSVal → String
  | .undefined => "undefined"
  | .null => "null"
  | .str s => s
  | .num n => toString n
  | .bool b => if b then "true" else "false"
  | .arr elems => String.intercalate ","
      (elems.map (fun e => match e with
        | .null => ""
        | .undefined => ""
        | .str s => s
        | .num n => toString n
        | .bool b => if b then "true" else "false"
        | _ => ""))
  | .obj _ => "[object Object]"

/-- Array.prototype.join with a separator; null and undefined elements
render as the empty string. -/
def jsJoin (sep : String) (elems : List JSVal) : String :=
  String.intercalate sep
    (elems.map (fun e => match e with
      | .null => ""
      | .undefined => ""
      | v => jsDisplay v))

/-- Membership test on a list of characters: the first list occurs as a
contiguous run of the second.  Embeds String.prototype.includes below. -/
def charsInfix (pat : List Char) : List Char → Bool
  | [] => pat.isEmpty
  | c :: rest => pat.isPrefixOf (c :: rest) || charsInfix pat rest

/-- Embeds String.prototype.includes: the pattern occurs as a contiguous
substring. -/
def jsIncludes (s pat : String) : Bool :=
  charsInfix pat.toList s.toList

/-- Embeds parseInt(s, 10) applied to a list of characters after sign
handling: the leading run of decimal digits, none giving NaN (`none`). -/
def parseDecDigits (cs : List Char) : Option Nat :=
  let ds := cs.takeWhile Char.isDigit
  if ds.isEmpty then none
  else some (ds.foldl (fun n c => n * 10 + (c.toNat - 48)) 0)

/-- Embeds parseInt(s, 10): skip leading whitespace, optional sign, then
the leading run of decimal digits; `none` models NaN. -/
def jsParseInt (s : String) : Option Int :=
  match s.toList.dropWhile Char.isWhitespace with
  | '-' :: rest => (parseDecDigits rest).map (fun n => -(n : Int))
  | '+' :: rest => (parseDecDigits rest).map (fun n => (n : Int))
  | cs => (parseDecDigits cs).map (fun n => (n : Int))

/-- The declared type of a field rule, from the ValidationRule type of
src/unnamed/part_005. -/
inductive JSType where
  | string
  | number
  | boolean
  | array
  | object
deriving DecidableEq

/-- Rendering of a declared type inside error messages, matching the
string literal union of the TypeScript type. -/
def fieldTypeName : JSType → String
  | .string => "string"
  | .number => "number"
  | .boolean => "boolean"
  | .array => "array"
  | .object => "object"

/-- The switch on rule.type inside validateField. -/
def typeOk : JSType → JSVal → Bool
  | .string, v => isString v
  | .number, v => isNumber v
  | .boolean, v => isBoolean v
  | .array, v => isArray v
  | .object, v => isObject v

/-- Result of a custom validator: boolean or string, as in the
TypeScript signature (value) =&gt; boolean | string. -/
inductive CustomResult where
  | bool (b : Bool)
  | str (s : String)

/-- Embeds the ValidationErrorDetail interface; the offending value is
kept, as in the source. -/
structure ValidationErrorDetail where
  field : String
  message : String
  value : JSVal

/-- Embeds the ValidationRule interface.  A RegExp is modelled by its
test predicate on strings. -/
structure ValidationRule where
  field : String
  required : Bool := false
  type? : Option JSType := none
  minLength : Option Nat := none
  maxLength : Option Nat := none
  min? : Option Int := none
  max? : Option Int := none
  pattern : Option (String → Bool) := none
  enum? : Option (List JSVal) := none
  custom? : Option (JSVal → CustomResult) := none

/-- Embeds the ValidationSchema interface; an absent strict flag is
falsy, hence the default. -/
structure ValidationSchema where
  rules : List ValidationRule
  strict : Bool := false

/-- Embeds the ValidationResult interface. -/
structure ValidationResult where
  isValid : Bool
  errors : List ValidationErrorDetail

/-- String-specific checks of validateField (minLength, maxLength,
pattern).  The source guards minLength and maxLength by truthiness, so a
zero bound is skipped; pattern objects are always truthy. -/
def stringRuleErrors (value : JSVal) (rule : ValidationRule) : List ValidationErrorDetail :=
  match value with
  | .str s =>
      (match rule.minLength with
       | some m =>
          if m ≠ 0 then
            if s.length < m then
              [{ field := rule.field
                 message := rule.field ++ " must be at least " ++ toString m ++ " characters long"
                 value := value }]
            else []
          else []
       | none => []) ++
      (match rule.maxLength with
       | some m =>
          if m ≠ 0 then
            if s.length > m then
              [{ field := rule.field
                 message := rule.field ++ " must be no more than " ++ toString m ++ " characters long"
                 value := value }]
            else []
          else []
       | none => []) ++
      (match rule.pattern with
       | some p =>
          if ¬ p s then
            [{ field := rule.field
               message := rule.field ++ " format is invalid"
               value := value }]
          else []
       | none => [])
  | _ => []

/-- Number-specific checks of validateField (min, max); the source tests
these bounds against undefined explicitly, so a zero bound still runs. -/
def numberRuleErrors (value : JSVal) (rule : ValidationRule) : List ValidationErrorDetail :=
  match value with
  | .num n =>
      (match rule.min? with
       | some m =>
          if n < m then
            [{ field := rule.field
               message := rule.field ++ " must be at least " ++ toString m
               value := value }]
          else []
       | none => []) ++
      (match rule.max? with
       | some m =>
          if n > m then
            [{ field := rule.field
               message := rule.field ++ " must be no more than " ++ toString m
               value := value }]
          else []
       | none => [])
  | _ => []

/-- Enum check of validateField; a present enum array is truthy even
when empty. -/
def enumRuleErrors (value : JSVal) (rule : ValidationRule) : List ValidationErrorDetail :=
  match rule.enum? with
  | some es =>
      if ¬ (es.any (fun e => jsStrictEq e value)) then
        [{ field := rule.field
           message := rule.field ++ " must be one of: " ++ jsJoin ", " es
           value := value }]
      else []
  | none => []

/-- Custom check of validateField: any result other than boolean true
produces an error; a string result is the message, otherwise a generic
one. -/
def customRuleErrors (value : JSVal) (rule : ValidationRule) : List ValidationErrorDetail :=
  match rule.custom? with
  | some f =>
      match f value with
      | .bool true => []
      | .bool false =>
          [{ field := rule.field
             message := rule.field ++ " is invalid"
             value := value }]
      | .str s =>
          [{ field := rule.field
             message := s
             value := value }]
  | none => []

/-- The checks of validateField that run after the type gate, in source
order: string checks, number checks, enum, custom. -/
def postTypeChecks (value : JSVal) (rule : ValidationRule) : List ValidationErrorDetail :=
  stringRuleErrors value rule ++ numberRuleErrors value rule ++
    enumRuleErrors value rule ++ customRuleErrors value rule

/-- Embeds validateField of validation.ts: required gate, optional-absent
gate, type gate with early return, then the remaining checks. -/
def validateField (value : JSVal) (rule : ValidationRule) : List ValidationErrorDetail :=
  if rule.required && !(isDefined value) then
    [{ field := rule.field
       message := rule.field ++ " is required"
       value := value }]
  else if !rule.required && !(isDefined value) then
    []
  else
    match rule.type? with
    | some t =>
        if !(typeOk t value) then
          [{ field := rule.field
             message := rule.field ++ " must be of type " ++ fieldTypeName t
             value := value }]
        else postTypeChecks value rule
    | none => postTypeChecks value rule

/-- Property access dataObj[f] on an object given by its fields: the
first binding wins (JavaScript objects have distinct keys); a missing
key reads as undefined. -/
def lookupField (fields : List (String × JSVal)) (f : String) : JSVal :=
  match fields.find? (fun p => p.1 == f) with
  | some p => p.2
  | none => .undefined

/-- The fields of an object value, as the cast to Record in the
source. -/
def objEntries : JSVal → List (String × JSVal)
  | .obj fields => fields
  | _ => []

/-- Embeds validateSchema of validation.ts: root type gate, per-rule
field validation accumulating errors in rule order, then the strict-mode
unknown-field sweep in key iteration order. -/
def validateSchema (data : JSVal) (schema : ValidationSchema) : ValidationResult :=
  if !(isObject data) then
    { isValid := false
      errors := [{ field := "root", message := "Data must be an object", value := data }] }
  else
    let fields := objEntries data
    let ruleErrors := schema.rules.foldl
      (fun acc rule => acc ++ validateField (lookupField fields rule.field) rule) []
    let errors :=
      if schema.strict then
        let allowedFields := schema.rules.map (fun rule => rule.field)
        let providedFields := fields.map Prod.fst
        let unknownFields := providedFields.filter (fun f => !(allowedFields.contains f))
        ruleErrors ++ unknownFields.map
          (fun f => { field := f, message := "Unknown field: " ++ f, value := lookupField fields f })
      else ruleErrors
    { isValid := errors.length == 0, errors := errors }

/-- The inline schema of validateCreateItemRequest, including its custom
checks built from isNonEmptyString with a string fallback message. -/
def createItemSchema : ValidationSchema :=
  { rules :=
      [ { field := "name"
          required := true
          type? := some .string
          minLength := some 1
          maxLength := some 100
          custom? := some (fun v =>
            if isNonEmptyString v then .bool true else .str "Name cannot be empty") }
      , { field := "description"
          required := true
          type? := some .string
          minLength := some 1
          maxLength := some 500
          custom? := some (fun v =>
            if isNonEmptyString v then .bool true else .str "Description cannot be empty") } ]
    strict := true }

/-- Embeds validateCreateItemRequest of validation.ts. -/
def validateCreateItemRequest (data : JSVal) : ValidationResult :=
  validateSchema data createItemSchema

/-- The inline schema of validateUpdateItemRequest. -/
def updateItemSchema : ValidationSchema :=
  { rules :=
      [ { field := "name"
          required := false
          type? := some .string
          minLength := some 1
          maxLength := some 100
          custom? := some (fun v =>
            if !(isDefined v) then .bool true
            else if isNonEmptyString v then .bool true
            else .str "Name cannot be empty") }
      , { field := "description"
          required := false
          type? := some .string
          minLength := some 1
          maxLength := some 500
          custom? := some (fun v =>
            if !(isDefined v) then .bool true
            else if isNonEmptyString v then .bool true
            else .str "Description cannot be empty") }
      , { field := "status"
          required := false
          type? := some .string
          enum? := some [.str "active", .str "inactive"] } ]
    strict := true }

/-- Embeds validateUpdateItemRequest of validation.ts. -/
def validateUpdateItemRequest (data : JSVal) : ValidationResult :=
  validateSchema data updateItemSchema

/-- Embeds validateItemId of validation.ts: required, string, non-empty,
in that order, at most one error. -/
def validateItemId (id : JSVal) : ValidationResult :=
  let errors : List ValidationErrorDetail :=
    if !(isDefined id) then
      [{ field := "id", message := "Item ID is required", value := id }]
    else if !(isString id) then
      [{ field := "id", message := "Item ID must be a string", value := id }]
    else if !(isNonEmptyString id) then
      [{ field := "id", message := "Item ID cannot be empty", value := id }]
    else []
  { isValid := errors.length == 0, errors := errors }

/-- The custom check of the limit query parameter: absent passes,
otherwise parseInt of the string coercion must give a number in 1..100. -/
def limitCustom (v : JSVal) : CustomResult :=
  if !(isDefined v) then .bool true
  else
    match jsParseInt (jsDisplay v) with
    | some n => if n > 0 ∧ n ≤ 100 then .bool true
                else .str "Limit must be a number between 1 and 100"
    | none => .str "Limit must be a number between 1 and 100"

/-- The custom check of the offset query parameter: absent passes,
otherwise parseInt must give a non-negative number. -/
def offsetCustom (v : JSVal) : CustomResult :=
  if !(isDefined v) then .bool true
  else
    match jsParseInt (jsDisplay v) with
    | some n => if n ≥ 0 then .bool true
                else .str "Offset must be a non-negative number"
    | none => .str "Offset must be a non-negative number"

/-- The inline schema of validateListQueryParams; strict is false to
allow other query parameters. -/
def listQuerySchema : ValidationSchema :=
  { rules :=
      [ { field := "limit"
          required := false
          type? := some .string
          custom? := some limitCustom }
      , { field := "offset"
          required := false
          type? := some .string
          custom? := some offsetCustom }
      , { field := "status"
          required := false
          type? := some .string
          enum? := some [.str "active", .str "inactive"] } ]
    strict := false }

/-- JavaScript truthiness, embedding the params || {} default of
validateListQueryParams. -/
def jsTruthy : JSVal → Bool
  | .undefined => false
  | .null => false
  | .bool b => b
  | .num n => n != 0
  | .str s => s.length != 0
  | .arr _ => true
  | .obj _ => true

/-- Embeds validateListQueryParams of validation.ts: a falsy parameter
bag is replaced by an empty object before schema validation. -/
def validateListQueryParams (params : JSVal) : ValidationResult :=
  validateSchema (if jsTruthy params then params else .obj []) listQuerySchema

/-- The serialised JSON body of an ApiError response, from the
ErrorResponseBody interface of src/unnamed/part_006; the timestamp field
depends on the clock and is outside the model. -/
structure ErrorResponseBody where
  success : Bool
  error : String
  message : String
  statusCode : Nat

/-- An API Gateway error response: status code plus the structured
body; headers are constant and outside the model. -/
structure ApiResponse where
  statusCode : Nat
  body : ErrorResponseBody

/-- An ApiError instance of src/unnamed/part_006: the subclass fixes
statusCode and errorCode, the message is per instance. -/
structure ApiError where
  statusCode : Nat
  errorCode : String
  message : String

/-- Embeds ApiError.prototype.toResponse. -/
def ApiError.toResponse (e : ApiError) : ApiResponse :=
  { statusCode := e.statusCode
    body :=
      { success := false
        error := e.errorCode
        message := e.message
        statusCode := e.statusCode } }

/-- Embeds the ValidationError class (400, VALIDATION_ERROR). -/
def ValidationError (message : String) : ApiError :=
  { statusCode := 400, errorCode := "VALIDATION_ERROR", message := message }

/-- Embeds the NotFoundError class (404, NOT_FOUND). -/
def NotFoundError (message : String) : ApiError :=
  { statusCode := 404, errorCode := "NOT_FOUND", message := message }

/-- Embeds the InternalServerError class (500, INTERNAL_SERVER_ERROR). -/
def InternalServerError (message : String) : ApiError :=
  { statusCode := 500, errorCode := "INTERNAL_SERVER_ERROR", message := message }

/-- Embeds the RateLimitError class (429, RATE_LIMIT_EXCEEDED). -/
def RateLimitError (message : String) : ApiError :=
  { statusCode := 429, errorCode := "RATE_LIMIT_EXCEEDED", message := message }

/-- Embeds the UnauthorizedError class (401, UNAUTHORIZED). -/
def UnauthorizedError (message : String) : ApiError :=
  { statusCode := 401, errorCode := "UNAUTHORIZED", message := message }

/-- Embeds the ForbiddenError class (403, FORBIDDEN). -/
def ForbiddenError (message : String) : ApiError :=
  { statusCode := 403, errorCode := "FORBIDDEN", message := message }

/-- Embeds the ConflictError class (409, CONFLICT). -/
def ConflictError (message : String) : ApiError :=
  { statusCode := 409, errorCode := "CONFLICT", message := message }

/-- A thrown JavaScript value, partitioned the way handleError inspects
it: an ApiError instance, an Error that is not an ApiError (carrying its
message), or any non-Error value. -/
inductive Thrown where
  | api (e : ApiError)
  | err (message : String)
  | other (value : JSVal)

/-- Embeds handleError of items.ts: ApiError instances answer through
toResponse; plain Errors are classified by case-sensitive keyword
substrings of the message in source order; non-Error values degrade to a
generic internal error. -/
def handleError : Thrown → ApiResponse
  | .api e => e.toResponse
  | .err msg =>
    if jsIncludes msg "validation" || jsIncludes msg "invalid" then
      (ValidationError msg).toResponse
    else if jsIncludes msg "not found" || jsIncludes msg "does not exist" then
      (NotFoundError msg).toResponse
    else if jsIncludes msg "unauthorized" || jsIncludes msg "authentication" then
      (UnauthorizedError msg).toResponse
    else if jsIncludes msg "forbidden" || jsIncludes msg "permission" then
      (ForbiddenError msg).toResponse
    else if jsIncludes msg "conflict" || jsIncludes msg "already exists" then
      (ConflictError msg).toResponse
    else if jsIncludes msg "rate limit" || jsIncludes msg "throttle" then
      (RateLimitError msg).toResponse
    else
      (InternalServerError ("Internal server error: " ++ msg)).toResponse
  | .other _ => (InternalServerError "An unexpected error occurred").toResponse

/-- Embeds createValidationError of items.ts: each detail becomes
"field: message", the parts are joined with ", " and prefixed by
"Validation failed: ". -/
def createValidationError (errors : List (String × String)) : ApiError :=
  ValidationError
    ("Validation failed: " ++
      String.intercalate ", " (errors.map (fun e => e.1 ++ ": " ++ e.2)))

/-- Character-wise ASCII lowercasing of a string, embedding
String.prototype.toLowerCase as used by the classification policy the
spec describes. -/
def lowercase (s : String) : String :=
  ⟨s.toList.map Char.toLower⟩

/-- Modelled from the spec (generic-error classification policy): the
classifier the spec describes, which inspects the LOWERCASE of the
message for the keyword substrings in the fixed priority order and wraps
the original message.  Stated for comparison with handleError, which is
the authority. -/
def specClassifyLower (msg : String) : ApiResponse :=
  let m := lowercase msg
  if jsIncludes m "validation" || jsIncludes m "invalid" then
    (ValidationError msg).toResponse
  else if jsIncludes m "not found" || jsIncludes m "does not exist" then
    (NotFoundError msg).toResponse
  else if jsIncludes m "unauthorized" || jsIncludes m "authentication" then
    (UnauthorizedError msg).toResponse
  else if jsIncludes m "forbidden" || jsIncludes m "permission" then
    (ForbiddenError msg).toResponse
  else if jsIncludes m "conflict" || jsIncludes m "already exists" then
    (ConflictError msg).toResponse
  else if jsIncludes m "rate limit" || jsIncludes m "throttle" then
    (RateLimitError msg).toResponse
  else
    (InternalServerError ("Internal server error: " ++ msg)).toResponse

/-- The amended classification policy: the same fixed priority order of
keyword checks, applied to the message text as written (case-sensitive).
Stated in the words of the amended claim, for comparison with
handleError. -/
def specClassifyRaw (msg : String) : ApiResponse :=
  if jsIncludes msg "validation" || jsIncludes msg "invalid" then
    (ValidationError msg).toResponse
  else if jsIncludes msg "not found" || jsIncludes msg "does not exist" then
    (NotFoundError msg).toResponse
  else if jsIncludes msg "unauthorized" || jsIncludes msg "authentication" then
    (UnauthorizedError msg).toResponse
  else if jsIncludes msg "forbidden" || jsIncludes msg "permission" then
    (ForbiddenError msg).toResponse
  else if jsIncludes msg "conflict" || jsIncludes msg "already exists" then
    (ConflictError msg).toResponse
  else if jsIncludes msg "rate limit" || jsIncludes msg "throttle" then
    (RateLimitError msg).toResponse
  else
    (InternalServerError ("Internal server error: " ++ msg)).toResponse

/-- A length test against zero by boolean equality agrees with
List.isEmpty. -/
theorem beq_length_zero {α : Type} (l : List α) : (l.length == 0) = l.isEmpty := by
  cases l <;> rfl

/-- Accumulating appends over a fold, as the per-rule error loop of
validateSchema does, is the flattened list of the per-element results
after the initial accumulator. -/
theorem foldl_append_eq_join {α β : Type} (f : α → List β) (xs : List α) :
    ∀ init : List β,
      xs.foldl (fun acc a => acc ++ f a) init = init ++ (xs.map f).flatten := by
  induction xs with
  | nil => intro init; simp
  | cons x xs ih =>
      intro init
      simp only [List.foldl_cons, List.map_cons, List.flatten_cons]
      rw [ih, List.append_assoc]

/-- The isValid flag of a validateSchema result always equals the
emptiness of its error list. -/
theorem validateSchema_inv (d : JSVal) (s : ValidationSchema) :
    (validateSchema d s).isValid = (validateSchema d s).errors.isEmpty := by
  cases d with
  | obj fields => exact beq_length_zero _
  | undefined => rfl
  | null => rfl
  | str s => rfl
  | num n => rfl
  | bool b => rfl
  | arr elems => rfl

/-- The isValid flag of a validateItemId result always equals the
emptiness of its error list. -/
theorem validateItemId_inv (id : JSVal) :
    (validateItemId id).isValid = (validateItemId id).errors.isEmpty :=
  beq_length_zero _

/-- Claim C1, counterexample.  The claim states that handleError
classifies a plain Error by keyword substrings of the LOWERCASE of its
message.  On the message INVALID the lowercase contains the keyword
invalid, so the claimed policy yields Validation (400); the code
inspects the message as written and falls through every keyword check,
answering Internal (500). -/
theorem specLowercasePolicy_diverges_on_uppercase_message :
    jsIncludes (lowercase "INVALID") "invalid" = true ∧
    (specClassifyLower "INVALID").statusCode = 400 ∧
    (specClassifyLower "INVALID").body.error = "VALIDATION_ERROR" ∧
    (handleError (.err "INVALID")).statusCode = 500 ∧
    (handleError (.err "INVALID")).body.error = "INTERNAL_SERVER_ERROR" :=
  ⟨rfl, rfl, rfl, rfl, rfl⟩

/-- Claim C1, amended.  For every thrown value that is an Error but not
an ApiError, handleError selects the taxonomy kind by inspecting the
message text AS WRITTEN (case-sensitively, not lowercased) for keyword
substrings in the fixed priority order: validation or invalid gives
Validation (400), else not found or does not exist gives NotFound (404),
else unauthorized or authentication gives Unauthorized (401), else
forbidden or permission gives Forbidden (403), else conflict or already
exists gives Conflict (409), else rate limit or throttle gives RateLimit
(429), else Internal (500) wrapping the original message; a message
containing two trigger keywords resolves to whichever check is listed
first, since specClassifyRaw tries the checks in exactly that order. -/
theorem handleError_keyword_priority_on_raw_message (m : String) :
    handleError (.err m) = specClassifyRaw m :=
  rfl

/-- Claim C2, counterexample.  The claim states that
validateCreateItemRequest on name empty and description ok returns an
errors list consisting of exactly one detail; the code returns two (the
minLength check and the custom non-empty check both fire). -/
theorem validateCreateItemRequest_empty_name_not_single_error :
    (validateCreateItemRequest
        (.obj [("name", .str ""), ("description", .str "ok")])).errors.length = 2 ∧
    (validateCreateItemRequest
        (.obj [("name", .str ""), ("description", .str "ok")])).errors.length ≠ 1 :=
  ⟨rfl, by decide⟩

/-- Claim C2, amended.  validateCreateItemRequest applied to the object
with name the empty string and description ok returns isValid false with
an errors list of exactly two details, both for the field name: the
minLength message (name must be at least 1 characters long) followed by
the custom message (Name cannot be empty), the latter containing the
word empty. -/
theorem validateCreateItemRequest_empty_name_two_errors :
    (validateCreateItemRequest
        (.obj [("name", .str ""), ("description", .str "ok")])).isValid = false ∧
    (validateCreateItemRequest
        (.obj [("name", .str ""), ("description", .str "ok")])).errors.map
        (fun e => (e.field, e.message)) =
      [("name", "name must be at least 1 characters long"),
       ("name", "Name cannot be empty")] ∧
    jsIncludes "Name cannot be empty" "empty" = true :=
  ⟨rfl, rfl, rfl⟩

/-- Claim C3, counterexample.  The claim states that the message of
createValidationError is exactly the comma-joined field: message pairs;
the code prefixes the join with the text Validation failed, so already
on the single pair (a, b) the message differs from the bare join. -/
theorem createValidationError_message_not_bare_join :
    (createValidationError [("a", "b")]).message = "Validation failed: a: b" ∧
    (createValidationError [("a", "b")]).message ≠
      String.intercalate ", " ([("a", "b")].map (fun e => e.1 ++ ": " ++ e.2)) :=
  ⟨rfl, by decide⟩

/-- Claim C3, amended.  For every non-empty list of field and message
pairs, createValidationError returns a Validation-kind error (statusCode
400, errorCode VALIDATION_ERROR) whose message is the text Validation
failed followed by the comma-joined field: message pairs, in the same
order the details were produced. -/
theorem createValidationError_prefixed_join
    (errs : List (String × String)) (_h : errs ≠ []) :
    createValidationError errs =
      { statusCode := 400
        errorCode := "VALIDATION_ERROR"
        message := "Validation failed: " ++
          String.intercalate ", " (errs.map (fun e => e.1 ++ ": " ++ e.2)) } :=
  rfl

/-- Witness for the amended claim C3 at the single pair (name, x). -/
theorem createValidationError_prefixed_join_witness :
    ([("name", "x")] : List (String × String)) ≠ [] ∧
    createValidationError [("name", "x")] =
      { statusCode := 400
        errorCode := "VALIDATION_ERROR"
        message := "Validation failed: name: x" } :=
  ⟨by decide, createValidationError_prefixed_join [("name", "x")] (by decide)⟩

/-- Claim C4.  For every rule with a declared type and every present
value whose runtime type does not match it, validateField returns
exactly the one type-mismatch error; no length, range, enum or custom
check of the rule contributes, even if the value would satisfy it. -/
theorem validateField_type_mismatch_single_error
    (rule : ValidationRule) (v : JSVal) (t : JSType)
    (h1 : rule.type? = some t) (h2 : isDefined v = true) (h3 : typeOk t v = false) :
    validateField v rule =
      [{ field := rule.field
         message := rule.field ++ " must be of type " ++ fieldTypeName t
         value := v }] := by
  simp [validateField, h1, h2, h3]

/-- Witness for claim C4: a rule declaring type string applied to the
number 5 produces exactly the type-mismatch error. -/
theorem validateField_type_mismatch_single_error_witness :
    ({ field := "id", type? := some JSType.string } : ValidationRule).type? =
        some JSType.string ∧
    isDefined (JSVal.num 5) = true ∧
    typeOk JSType.string (JSVal.num 5) = false ∧
    validateField (JSVal.num 5) { field := "id", type? := some JSType.string } =
      [{ field := "id", message := "id must be of type string", value := JSVal.num 5 }] :=
  ⟨rfl, rfl, rfl, by
    exact validateField_type_mismatch_single_error
      { field := "id", type? := some JSType.string } (JSVal.num 5) JSType.string rfl rfl rfl⟩

/-- Claim C5.  For every input and schema the result of validateSchema
satisfies isValid equal to the emptiness of the errors list, and the
same invariant holds for validateItemId and for every domain validator
built on validateSchema (create, update, list-query). -/
theorem validation_isValid_eq_errors_isEmpty (data id p : JSVal) (schema : ValidationSchema) :
    (validateSchema data schema).isValid = (validateSchema data schema).errors.isEmpty ∧
    (validateItemId id).isValid = (validateItemId id).errors.isEmpty ∧
    (validateCreateItemRequest data).isValid =
      (validateCreateItemRequest data).errors.isEmpty ∧
    (validateUpdateItemRequest data).isValid =
      (validateUpdateItemRequest data).errors.isEmpty ∧
    (validateListQueryParams p).isValid = (validateListQueryParams p).errors.isEmpty :=
  ⟨validateSchema_inv data schema, validateItemId_inv id,
   validateSchema_inv data createItemSchema, validateSchema_inv data updateItemSchema,
   validateSchema_inv (if jsTruthy p then p else .obj []) listQuerySchema⟩

/-- Claim C6.  For every input value that is not a structured object
(primitive, null, undefined or array) and every schema, validateSchema
returns isValid false with exactly one error, field root and message
Data must be an object, independently of the per-field rules of the
schema. -/
theorem validateSchema_rejects_non_object_root
    (data : JSVal) (schema : ValidationSchema) (h : isObject data = false) :
    validateSchema data schema =
      { isValid := false
        errors := [{ field := "root", message := "Data must be an object", value := data }] } := by
  simp [validateSchema, h]

/-- Witness for claim C6 at a string input against the create-item
schema. -/
theorem validateSchema_rejects_non_object_root_witness :
    isObject (JSVal.str "nope") = false ∧
    validateSchema (JSVal.str "nope") createItemSchema =
      { isValid := false
        errors := [{ field := "root"
                     message := "Data must be an object"
                     value := JSVal.str "nope" }] } :=
  ⟨rfl, validateSchema_rejects_non_object_root (JSVal.str "nope") createItemSchema rfl⟩

/-- Claim C7.  For every strict schema and every object input, the
errors are the per-rule errors in rule order followed by one Unknown
field error for each input field not named by any rule, in the key
iteration order of the object; in particular validateCreateItemRequest
on an object with the extra field extra returns isValid false and
exactly the error for field extra whose message contains Unknown
field. -/
theorem validateSchema_strict_unknown_fields
    (schema : ValidationSchema) (l : List (String × JSVal)) (h : schema.strict = true) :
    ((validateSchema (.obj l) schema).errors =
      (schema.rules.map (fun rule => validateField (lookupField l rule.field) rule)).flatten ++
        ((l.map Prod.fst).filter
            (fun f => !((schema.rules.map (fun rule => rule.field)).contains f))).map
          (fun f => { field := f, message := "Unknown field: " ++ f, value := lookupField l f })) ∧
    (validateCreateItemRequest
        (.obj [("name", .str "a"), ("description", .str "b"), ("extra", .str "x")])).isValid
      = false ∧
    (validateCreateItemRequest
        (.obj [("name", .str "a"), ("description", .str "b"), ("extra", .str "x")])).errors.map
        (fun e => (e.field, e.message)) = [("extra", "Unknown field: extra")] ∧
    jsIncludes "Unknown field: extra" "Unknown field" = true :=
  ⟨by simp [validateSchema, objEntries, isObject, h, foldl_append_eq_join], rfl, rfl, rfl⟩

/-- Witness for claim C7: the strict create-item schema on an object
carrying the unknown field extra yields exactly the Unknown field
error. -/
theorem validateSchema_strict_unknown_fields_witness :
    createItemSchema.strict = true ∧
    (validateSchema
        (.obj [("name", .str "a"), ("description", .str "b"), ("extra", .str "x")])
        createItemSchema).errors =
      [{ field := "extra", message := "Unknown field: extra", value := JSVal.str "x" }] :=
  ⟨rfl, by
    exact (validateSchema_strict_unknown_fields createItemSchema
      [("name", .str "a"), ("description", .str "b"), ("extra", .str "x")] rfl).1⟩

/-- Claim C8.  Composing classification with response construction on
the plain error whose message is item not found yields a response with
statusCode 404 whose body has error equal to NOT_FOUND. -/
theorem handleError_not_found_response :
    (handleError (.err "item not found")).statusCode = 404 ∧
    (handleError (.err "item not found")).body.error = "NOT_FOUND" :=
  ⟨rfl, rfl⟩

/-- Claim C9.  Every thrown value that is not an Error (hence never
reaches any of the eight taxonomy kinds) degrades to an Internal (500)
response whose client-facing message is the generic text An unexpected
error occurred. -/
theorem handleError_unclassified_generic_internal (v : JSVal) :
    handleError (.other v) =
      { statusCode := 500
        body :=
          { success := false
            error := "INTERNAL_SERVER_ERROR"
            message := "An unexpected error occurred"
            statusCode := 500 } } :=
  rfl

/-- Claim C10.  validateListQueryParams applied to null or undefined
replaces the absent parameter bag by an empty object before schema
validation and returns isValid true with no errors, whereas
validateSchema applied to null directly would return the root-level
error Data must be an object. -/
theorem validateListQueryParams_absent_params :
    validateListQueryParams .null = { isValid := true, errors := [] } ∧
    validateListQueryParams .undefined = { isValid := true, errors := [] } ∧
    validateSchema .null listQuerySchema =
      { isValid := false
        errors := [{ field := "root", message := "Data must be an object", value := .null }] } :=
  ⟨rfl, rfl, rfl⟩

end HelloWorldAPI
